import Mathlib

/-!
Verification of the identification/measurement tool of the Online3DViewer fork
(`source/website/identificationtool.js`, plus the second source version of the
same file found in the repository).  The three.js primitives the tool calls
(`Vector3`, `Matrix4.extractRotation`, `Plane`, `Vector3.angleTo`, ...) are
embedded from their three.js sources with JavaScript numbers modelled as real
numbers.  The viewer, the DOM and the toolbar button are external collaborators;
the viewer's answers (ray-cast results, bounding-sphere radius) are inputs of
the embedded operations, and the DOM panel is modelled by its text content.
-/

noncomputable section

open scoped Classical RealInnerProductSpace

namespace OV

/-- Real-valued 3D vector, embedding three.js `Vector3`. -/
@[ext]
structure Vec3 where
  x : ℝ
  y : ℝ
  z : ℝ
deriving DecidableEq

namespace Vec3

/-- three.js `Vector3.lengthSq`: `x*x + y*y + z*z`. -/
def lengthSq (v : Vec3) : ℝ := v.x * v.x + v.y * v.y + v.z * v.z

/-- three.js `Vector3.length`: `sqrt(lengthSq)`. -/
def length (v : Vec3) : ℝ := Real.sqrt v.lengthSq

/-- three.js `Vector3.dot`. -/
def dot (a b : Vec3) : ℝ := a.x * b.x + a.y * b.y + a.z * b.z

/-- three.js `Vector3.distanceToSquared`: componentwise differences squared. -/
def distanceToSquared (a b : Vec3) : ℝ :=
  (a.x - b.x) * (a.x - b.x) + (a.y - b.y) * (a.y - b.y) + (a.z - b.z) * (a.z - b.z)

/-- three.js `Vector3.distanceTo`: `sqrt(distanceToSquared)`. -/
def distanceTo (a b : Vec3) : ℝ := Real.sqrt (a.distanceToSquared b)

end Vec3

/-- three.js `MathUtils.clamp(value, min, max) = Math.max(min, Math.min(max, value))`. -/
def clamp (value low high : ℝ) : ℝ := max low (min high value)

/-- three.js `Vector3.angleTo`: angle via `acos` of the clamped normalized dot
product; returns `pi / 2` when the denominator vanishes. -/
def Vec3.angleTo (a b : Vec3) : ℝ :=
  let denominator := Real.sqrt (a.lengthSq * b.lengthSq)
  if denominator = 0 then Real.pi / 2
  else Real.arccos (clamp (a.dot b / denominator) (-1) 1)

/-- Real 4x4 matrix, embedding three.js `Matrix4`; `mIJ` is the entry in row
`I`, column `J` of the mathematical matrix (three.js stores it column-major). -/
@[ext]
structure Mat4 where
  m00 : ℝ
  m01 : ℝ
  m02 : ℝ
  m03 : ℝ
  m10 : ℝ
  m11 : ℝ
  m12 : ℝ
  m13 : ℝ
  m20 : ℝ
  m21 : ℝ
  m22 : ℝ
  m23 : ℝ
  m30 : ℝ
  m31 : ℝ
  m32 : ℝ
  m33 : ℝ

namespace Mat4

/-- three.js `Matrix4.identity`. -/
def identityM : Mat4 :=
  ⟨1, 0, 0, 0,
   0, 1, 0, 0,
   0, 0, 1, 0,
   0, 0, 0, 1⟩

/-- three.js `Matrix4.multiplyMatrices(a, b)`: the product `a * b`. -/
def mul (a b : Mat4) : Mat4 where
  m00 := a.m00 * b.m00 + a.m01 * b.m10 + a.m02 * b.m20 + a.m03 * b.m30
  m01 := a.m00 * b.m01 + a.m01 * b.m11 + a.m02 * b.m21 + a.m03 * b.m31
  m02 := a.m00 * b.m02 + a.m01 * b.m12 + a.m02 * b.m22 + a.m03 * b.m32
  m03 := a.m00 * b.m03 + a.m01 * b.m13 + a.m02 * b.m23 + a.m03 * b.m33
  m10 := a.m10 * b.m00 + a.m11 * b.m10 + a.m12 * b.m20 + a.m13 * b.m30
  m11 := a.m10 * b.m01 + a.m11 * b.m11 + a.m12 * b.m21 + a.m13 * b.m31
  m12 := a.m10 * b.m02 + a.m11 * b.m12 + a.m12 * b.m22 + a.m13 * b.m32
  m13 := a.m10 * b.m03 + a.m11 * b.m13 + a.m12 * b.m23 + a.m13 * b.m33
  m20 := a.m20 * b.m00 + a.m21 * b.m10 + a.m22 * b.m20 + a.m23 * b.m30
  m21 := a.m20 * b.m01 + a.m21 * b.m11 + a.m22 * b.m21 + a.m23 * b.m31
  m22 := a.m20 * b.m02 + a.m21 * b.m12 + a.m22 * b.m22 + a.m23 * b.m32
  m23 := a.m20 * b.m03 + a.m21 * b.m13 + a.m22 * b.m23 + a.m23 * b.m33
  m30 := a.m30 * b.m00 + a.m31 * b.m10 + a.m32 * b.m20 + a.m33 * b.m30
  m31 := a.m30 * b.m01 + a.m31 * b.m11 + a.m32 * b.m21 + a.m33 * b.m31
  m32 := a.m30 * b.m02 + a.m31 * b.m12 + a.m32 * b.m22 + a.m33 * b.m32
  m33 := a.m30 * b.m03 + a.m31 * b.m13 + a.m32 * b.m23 + a.m33 * b.m33

/-- three.js `Matrix4.makeTranslation(t)`. -/
def translationM (t : Vec3) : Mat4 :=
  ⟨1, 0, 0, t.x,
   0, 1, 0, t.y,
   0, 0, 1, t.z,
   0, 0, 0, 1⟩

/-- three.js `Matrix4.makeScale(s)`. -/
def scaleM (s : Vec3) : Mat4 :=
  ⟨s.x, 0, 0, 0,
   0, s.y, 0, 0,
   0, 0, s.z, 0,
   0, 0, 0, 1⟩

/-- three.js `Matrix4.extractRotation(m)`: each of the three basis columns of
`m` divided by its length, with the translation column and the projective row
reset to those of the identity. -/
def extractRotation (m : Mat4) : Mat4 :=
  let sX := 1 / (Vec3.mk m.m00 m.m10 m.m20).length
  let sY := 1 / (Vec3.mk m.m01 m.m11 m.m21).length
  let sZ := 1 / (Vec3.mk m.m02 m.m12 m.m22).length
  ⟨m.m00 * sX, m.m01 * sY, m.m02 * sZ, 0,
   m.m10 * sX, m.m11 * sY, m.m12 * sZ, 0,
   m.m20 * sX, m.m21 * sY, m.m22 * sZ, 0,
   0, 0, 0, 1⟩

/-- Product of a root-first list of local matrices: the world matrix that
three.js `updateWorldMatrix(true, false)` computes for the last object of the
chain (`matrixWorld = parent.matrixWorld * matrix`, recursively). -/
def prodList (ms : List Mat4) : Mat4 := ms.foldl Mat4.mul Mat4.identityM

end Mat4

/-- three.js `Vector3.applyMatrix4`: homogeneous transform with perspective
divide. -/
def Vec3.applyMatrix4 (v : Vec3) (m : Mat4) : Vec3 :=
  let w := 1 / (m.m30 * v.x + m.m31 * v.y + m.m32 * v.z + m.m33)
  ⟨(m.m00 * v.x + m.m01 * v.y + m.m02 * v.z + m.m03) * w,
   (m.m10 * v.x + m.m11 * v.y + m.m12 * v.z + m.m13) * w,
   (m.m20 * v.x + m.m21 * v.y + m.m22 * v.z + m.m23) * w⟩

/-- The scene-graph object hit by the ray-cast, reduced to what
`GetFaceWorldNormal` reads from it: the chain of local matrices of its
ancestors (root first, the object's own local matrix last), from which
`updateWorldMatrix(true, false)` recomputes `matrixWorld`. -/
structure Obj3D where
  ancestors : List Mat4

/-- The intersected face, reduced to its local-space normal. -/
structure Face where
  normal : Vec3

/-- A three.js ray-cast intersection record, reduced to the fields the tool
reads: the hit point, the hit face and the hit object. -/
structure Intersection where
  object : Obj3D
  face : Face
  point : Vec3

/-- `GetFaceWorldNormal` (identificationtool.js lines 8-15): update the world
matrix through the ancestors, extract its rotation component, and apply it to
a clone of the face's local normal. -/
def GetFaceWorldNormal (i : Intersection) : Vec3 :=
  let normalMatrix := Mat4.extractRotation (Mat4.prodList i.object.ancestors)
  i.face.normal.applyMatrix4 normalMatrix

/-- Modelled from the spec: `IsEqualEps` is imported from
`engine/geometry/geometry.js`, which is not part of the sources; the spec
describes it as "the small near-zero/near-pi angle comparison used to decide
whether two faces are parallel", i.e. the absolute difference is below the
epsilon. -/
def IsEqualEps (a b eps : ℝ) : Prop := |b - a| < eps

/-- Modelled from the spec: `BigEps` is the epsilon constant imported from
`engine/geometry/geometry.js` (not part of the sources), the "small" tolerance
of the near-zero/near-pi comparison. -/
def BigEps : ℝ := 1 / 10000

/-- three.js `Plane`: the set of points `p` with `dot normal p + constant = 0`. -/
structure Plane where
  normal : Vec3
  constant : ℝ

/-- three.js `Plane.setFromNormalAndCoplanarPoint`: keeps the normal as given
(no normalization) and sets `constant = -point.dot(normal)`. -/
def Plane.setFromNormalAndCoplanarPoint (n p : Vec3) : Plane :=
  ⟨n, -(p.dot n)⟩

/-- three.js `Plane.distanceToPoint`: the signed value `normal.dot(point) +
constant` (a distance only when the normal is a unit vector). -/
def Plane.distanceToPoint (pl : Plane) (q : Vec3) : ℝ :=
  pl.normal.dot q + pl.constant

/-- A marker dropped on the mesh (class `Marker`): the stored intersection, the
circle/sphere radius of its scene object, and the scene object's position,
look-at target and visibility.  The decorative geometry (ellipse curve points,
sphere mesh, materials) lives in the external three.js scene. -/
structure Marker where
  intersection : Intersection
  radius : ℝ
  position : Vec3
  lookTarget : Vec3
  visible : Bool

/-- `Marker.UpdatePosition`: store the intersection, orient the scene object
toward the face's world normal (`position.set(0,0,0)` then `lookAt`), then move
it to the intersection point. -/
def Marker.updatePosition (m : Marker) (i : Intersection) : Marker :=
  { m with
    intersection := i
    lookTarget := GetFaceWorldNormal i
    position := i.point }

/-- The `Marker` constructor: builds the scene object (visible by default) and
immediately calls `UpdatePosition` on the given intersection. -/
def Marker.new (i : Intersection) (r : ℝ) : Marker :=
  Marker.updatePosition
    { intersection := i, radius := r, position := ⟨0, 0, 0⟩,
      lookTarget := ⟨0, 0, 0⟩, visible := true } i

/-- Result record of `CalculateMarkerValues`, fields initialized to `null`. -/
structure MarkerValues where
  pointsDistance : Option ℝ
  parallelFacesDistance : Option ℝ
  facesAngle : Option ℝ

/-- `CalculateMarkerValues` (identificationtool.js lines 67-85): distance
between the two intersection points, angle between the two world normals, and,
when that angle is within `BigEps` of `0` or of `pi`, the absolute three.js
plane distance from the second point to the plane through the first point with
the first world normal. -/
def CalculateMarkerValues (aMarker bMarker : Marker) : MarkerValues :=
  let aI := aMarker.intersection
  let bI := bMarker.intersection
  let aNormal := GetFaceWorldNormal aI
  let bNormal := GetFaceWorldNormal bI
  let pointsDistance := aI.point.distanceTo bI.point
  let facesAngle := aNormal.angleTo bNormal
  let parallelFacesDistance :=
    if IsEqualEps facesAngle 0 BigEps ∨ IsEqualEps facesAngle Real.pi BigEps then
      some |(Plane.setFromNormalAndCoplanarPoint aNormal aI.point).distanceToPoint bI.point|
    else none
  { pointsDistance := some pointsDistance
    parallelFacesDistance := parallelFacesDistance
    facesAngle := some facesAngle }

/-- Kinds of extra objects handed to `viewer.AddExtraObject`; the objects
themselves live in the external three.js scene, so we record the kind and, for
the measurement line, its endpoints. -/
inductive ExtraObject where
  | markerObject : ExtraObject
  | line : Vec3 → Vec3 → ExtraObject
  | debugSphere : ExtraObject
  | debugLine : Vec3 → Vec3 → ExtraObject
deriving DecidableEq

/-- The viewer collaborator, reduced to the datum the tool reads from it: the
radius of the bounding sphere used to size markers. -/
structure ViewerEnv where
  boundingSphereRadius : ℝ

/-- State of an `IdentificationTool` instance together with the parts of the
viewer and the DOM it mutates: the panel is its text content (`none` when not
created), and `extraObjects` mirrors the viewer's extra-object list. -/
structure ToolState where
  isActive : Bool
  markers : List Marker
  tempMarker : Option Marker
  panel : Option String
  extraObjects : List ExtraObject

/-- The constructor's state: inactive, no markers, no temp marker, no panel. -/
def initState : ToolState :=
  { isActive := false, markers := [], tempMarker := none, panel := none,
    extraObjects := [] }

namespace IdentificationTool

/-- `ClearMarkers`: `viewer.ClearExtra()`, empty the marker list, drop the temp
marker. -/
def ClearMarkers (s : ToolState) : ToolState :=
  { s with extraObjects := [], markers := [], tempMarker := none }

/-- `GenerateMarker`: size from the viewer's bounding sphere (`radius / 20`),
build a `Marker`, add its scene object to the viewer's extras. -/
def GenerateMarker (env : ViewerEnv) (s : ToolState) (i : Intersection) :
    Marker × ToolState :=
  let radius := env.boundingSphereRadius / 20
  let m := Marker.new i radius
  (m, { s with extraObjects := s.extraObjects ++ [ExtraObject.markerObject] })

/-- `AddMarker` (src version, lines 157-166): generate a marker, push it, and
when the list then has exactly two markers draw the line between their
intersection points. -/
def AddMarker (env : ViewerEnv) (s : ToolState) (i : Intersection) : ToolState :=
  let p := GenerateMarker env s i
  let s1 : ToolState := { p.2 with markers := p.2.markers ++ [p.1] }
  if s1.markers.length = 2 then
    { s1 with extraObjects := s1.extraObjects ++
        [ExtraObject.line ((s1.markers.getD 0 p.1).intersection.point)
          ((s1.markers.getD 1 p.1).intersection.point)] }
  else s1

/-- `UpdatePanel` (src version, lines 179-243), reduced to its observable
effects on panel text and scene: the styling calls touch only colors of the
external DOM.  With no panel, `ClearDomElement(null)` faults before any
effect, so the state is unchanged.  The text is a fixed prompt chosen by the
marker count; with three or more markers it is 'Check logs' and a debug sphere
plus three debug axis lines are added to the viewer's extras. -/
def UpdatePanel (s : ToolState) : ToolState :=
  match s.panel with
  | none => s
  | some _ =>
    if s.markers.length = 0 then { s with panel := some ("Select 1st") }
    else if s.markers.length = 1 then { s with panel := some ("Select 5th") }
    else if s.markers.length = 2 then { s with panel := some ("Select heel") }
    else
      { s with
        panel := some ("Check logs"),
        extraObjects := s.extraObjects ++
          [ExtraObject.debugSphere,
           ExtraObject.debugLine ⟨0, 0, 0⟩ ⟨2, 0, 0⟩,
           ExtraObject.debugLine ⟨0, 0, 0⟩ ⟨0, 2, 0⟩,
           ExtraObject.debugLine ⟨0, 0, 0⟩ ⟨0, 0, 2⟩] }

/-- `Click` (src version, lines 123-138): the viewer's ray-cast answer for the
mouse coordinates is the `res` argument.  A miss clears the markers and
refreshes the panel; a hit is ignored when exactly three markers exist,
otherwise it adds a marker and refreshes the panel. -/
def Click (env : ViewerEnv) (s : ToolState) (res : Option Intersection) :
    ToolState :=
  match res with
  | none => UpdatePanel (ClearMarkers s)
  | some i =>
    if s.markers.length = 3 then s
    else UpdatePanel (AddMarker env s i)

/-- `MouseMove` (lines 140-155): a miss hides the temp marker if it exists; a
hit creates the temp marker if needed, repositions it and shows it. -/
def MouseMove (env : ViewerEnv) (s : ToolState) (res : Option Intersection) :
    ToolState :=
  match res with
  | none =>
    match s.tempMarker with
    | none => s
    | some tm => { s with tempMarker := some { tm with visible := false } }
  | some i =>
    let p :=
      match s.tempMarker with
      | none => GenerateMarker env s i
      | some tm => (tm, s)
    let tm2 := Marker.updatePosition p.1 i
    { p.2 with tempMarker := some { tm2 with visible := true } }

/-- `SetActive` (lines 107-121): toggling on creates the (empty) panel and
refreshes it; toggling off clears the markers and removes the panel.  The
toolbar button highlight is external. -/
def SetActive (s : ToolState) (b : Bool) : ToolState :=
  if s.isActive = b then s
  else
    let s1 := { s with isActive := b }
    if b then UpdatePanel { s1 with panel := some ("") }
    else { ClearMarkers s1 with panel := none }

/-- `AddMarker` of the second source version (`src/unnamed/part_000` lines
135-138): push the generated marker, with no line drawing. -/
def AddMarker_v2 (env : ViewerEnv) (s : ToolState) (i : Intersection) :
    ToolState :=
  let p := GenerateMarker env s i
  { p.2 with markers := p.2.markers ++ [p.1] }

/-- `UpdatePanel` of the second source version (lines 151-187): same fixed
prompts for zero, one or two markers; with three or more the cleared panel is
left empty and nothing else happens. -/
def UpdatePanel_v2 (s : ToolState) : ToolState :=
  match s.panel with
  | none => s
  | some _ =>
    if s.markers.length = 0 then { s with panel := some ("Select 1st") }
    else if s.markers.length = 1 then { s with panel := some ("Select 5th") }
    else if s.markers.length = 2 then { s with panel := some ("Select heel") }
    else { s with panel := some ("") }

/-- `Click` of the second source version (lines 102-116): identical to the src
version except that the guard is `markers.length >= 3`. -/
def Click_v2 (env : ViewerEnv) (s : ToolState) (res : Option Intersection) :
    ToolState :=
  match res with
  | none => UpdatePanel_v2 (ClearMarkers s)
  | some i =>
    if s.markers.length ≥ 3 then s
    else UpdatePanel_v2 (AddMarker_v2 env s i)

end IdentificationTool

/-- External stimuli of the tool: each carries the viewer's ray-cast answer
where the method asks the viewer for one. -/
inductive Event where
  | setActive : Bool → Event
  | click : Option Intersection → Event
  | mouseMove : Option Intersection → Event
  | clearMarkers : Event

/-- One tool method call. -/
def stepEvent (env : ViewerEnv) (s : ToolState) (e : Event) : ToolState :=
  match e with
  | Event.setActive b => IdentificationTool.SetActive s b
  | Event.click r => IdentificationTool.Click env s r
  | Event.mouseMove r => IdentificationTool.MouseMove env s r
  | Event.clearMarkers => IdentificationTool.ClearMarkers s

/-- States reachable from the constructor by a sequence of method calls. -/
def runEvents (env : ViewerEnv) (es : List Event) : ToolState :=
  es.foldl (stepEvent env) initState

/-! Specification-side vocabulary: the embedded vectors viewed in the standard
three-dimensional Euclidean space of Mathlib, so that the code's formulas can
be compared with the textbook distance, angle and point-to-plane distance. -/

/-- Standard three-dimensional Euclidean space. -/
abbrev E3 := EuclideanSpace ℝ (Fin 3)

/-- A `Vec3` as a point of Euclidean space. -/
def Vec3.toE (v : Vec3) : E3 := ![v.x, v.y, v.z]

/-- The plane through `p` with normal `n`: all points whose offset from `p` is
orthogonal to `n`. -/
def planeThrough {E : Type*} [NormedAddCommGroup E] [InnerProductSpace ℝ E]
    (n p : E) : Set E :=
  setOf fun q => (inner n (q - p) : ℝ) = 0

/-! Concrete inputs used by witnesses and counterexamples. -/

/-- An intersection on an object with no transforms (empty ancestor chain, so
the world matrix is the identity). -/
def simpleIntersection (p n : Vec3) : Intersection :=
  { object := { ancestors := [] }, face := { normal := n }, point := p }

/-- A viewer whose bounding sphere has radius 20 (markers get radius 1). -/
def envW : ViewerEnv := ⟨20⟩

/-- A concrete ray-cast hit at the origin on a face with unit normal. -/
def hitW : Intersection := simpleIntersection ⟨0, 0, 0⟩ ⟨1, 0, 0⟩

/-- Three clicks that all hit the mesh. -/
def threeClicks : List Event :=
  [Event.click (some hitW), Event.click (some hitW), Event.click (some hitW)]

/-- Marker at the origin, face normal `(1,0,0)`, untransformed object. -/
def markerA1 : Marker := Marker.new (simpleIntersection ⟨0, 0, 0⟩ ⟨1, 0, 0⟩) 1

/-- Marker at `(3,4,0)`, face normal `(1,0,0)`, untransformed object. -/
def markerB1 : Marker := Marker.new (simpleIntersection ⟨3, 4, 0⟩ ⟨1, 0, 0⟩) 1

/-- An active-tool state with two selected markers. -/
def twoMarkerState : ToolState :=
  { isActive := true, markers := [markerA1, markerB1], tempMarker := none,
    panel := some (""),
    extraObjects := [ExtraObject.markerObject, ExtraObject.markerObject] }

/-- Marker at the origin whose face normal `(2,0,0)` is not a unit vector. -/
def markerA2 : Marker := Marker.new (simpleIntersection ⟨0, 0, 0⟩ ⟨2, 0, 0⟩) 1

/-- Marker at `(1,0,0)` with the same non-unit face normal `(2,0,0)`. -/
def markerB2 : Marker := Marker.new (simpleIntersection ⟨1, 0, 0⟩ ⟨2, 0, 0⟩) 1

/-- A concrete world matrix: translation by `(1,2,3)`, identity rotation,
scale by `(2,3,4)`. -/
def c5World : Mat4 :=
  (Mat4.translationM ⟨1, 2, 3⟩).mul (Mat4.identityM.mul (Mat4.scaleM ⟨2, 3, 4⟩))

/-- An intersection whose object carries the matrix `c5World`. -/
def c5Inter : Intersection :=
  { object := { ancestors := [c5World] }, face := { normal := ⟨0, 0, 1⟩ },
    point := ⟨5, 5, 5⟩ }

/-! Bridge lemmas between the embedded three.js vectors and the standard
Euclidean space. -/

theorem toE_apply_zero (v : Vec3) : v.toE 0 = v.x := rfl

theorem toE_apply_one (v : Vec3) : v.toE 1 = v.y := rfl

theorem toE_apply_two (v : Vec3) : v.toE 2 = v.z := rfl

theorem lengthSq_nonneg (v : Vec3) : 0 ≤ v.lengthSq := by
  unfold Vec3.lengthSq
  nlinarith [sq_nonneg v.x, sq_nonneg v.y, sq_nonneg v.z]

theorem norm_toE (v : Vec3) : ‖v.toE‖ = v.length := by
  rw [EuclideanSpace.norm_eq, Fin.sum_univ_three]
  simp only [toE_apply_zero, toE_apply_one, toE_apply_two]
  unfold Vec3.length Vec3.lengthSq
  rw [Real.norm_eq_abs, Real.norm_eq_abs, Real.norm_eq_abs]
  congr 1
  rw [sq_abs, sq_abs, sq_abs]
  ring

theorem dist_toE (a b : Vec3) : dist a.toE b.toE = a.distanceTo b := by
  rw [EuclideanSpace.dist_eq, Fin.sum_univ_three]
  simp only [toE_apply_zero, toE_apply_one, toE_apply_two]
  unfold Vec3.distanceTo Vec3.distanceToSquared
  congr 1
  rw [Real.dist_eq, Real.dist_eq, Real.dist_eq, sq_abs, sq_abs, sq_abs]
  ring

theorem inner_toE (a b : Vec3) : (inner a.toE b.toE : ℝ) = a.dot b := by
  rw [PiLp.inner_apply, Fin.sum_univ_three]
  simp only [toE_apply_zero, toE_apply_one, toE_apply_two, RCLike.inner_apply,
    starRingEnd_apply, star_trivial]
  unfold Vec3.dot
  ring

theorem toE_eq_zero_of_lengthSq (v : Vec3) (hv : v.lengthSq = 0) : v.toE = 0 := by
  have hx : v.x = 0 ∧ v.y = 0 ∧ v.z = 0 := by
    unfold Vec3.lengthSq at hv
    refine ⟨?_, ?_, ?_⟩ <;>
      nlinarith [sq_nonneg v.x, sq_nonneg v.y, sq_nonneg v.z]
  obtain ⟨hx, hy, hz⟩ := hx
  unfold Vec3.toE
  rw [hx, hy, hz]
  funext j
  fin_cases j <;> rfl

theorem angleTo_eq_angle (a b : Vec3) :
    a.angleTo b = InnerProductGeometry.angle a.toE b.toE := by
  unfold Vec3.angleTo InnerProductGeometry.angle
  dsimp only
  by_cases h : Real.sqrt (a.lengthSq * b.lengthSq) = 0
  · rw [if_pos h]
    have hab : a.lengthSq = 0 ∨ b.lengthSq = 0 := by
      have h0 : a.lengthSq * b.lengthSq ≤ 0 := Real.sqrt_eq_zero'.mp h
      rcases mul_nonpos_iff.mp h0 with ⟨h1, h2⟩ | ⟨h1, h2⟩
      · exact Or.inr (le_antisymm h2 (lengthSq_nonneg b))
      · exact Or.inl (le_antisymm h1 (lengthSq_nonneg a))
    rcases hab with ha | hb
    · rw [toE_eq_zero_of_lengthSq a ha]
      simp [Real.arccos_zero]
    · rw [toE_eq_zero_of_lengthSq b hb]
      simp [Real.arccos_zero]
  · rw [if_neg h]
    have hpos : 0 < Real.sqrt (a.lengthSq * b.lengthSq) :=
      lt_of_le_of_ne (Real.sqrt_nonneg _) (Ne.symm h)
    have hden : Real.sqrt (a.lengthSq * b.lengthSq) = ‖a.toE‖ * ‖b.toE‖ := by
      rw [norm_toE, norm_toE]
      unfold Vec3.length
      rw [← Real.sqrt_mul (lengthSq_nonneg a)]
    have hCS : |a.dot b| ≤ Real.sqrt (a.lengthSq * b.lengthSq) := by
      rw [hden, ← inner_toE]
      exact abs_real_inner_le_norm _ _
    have hq : |a.dot b / Real.sqrt (a.lengthSq * b.lengthSq)| ≤ 1 := by
      rw [abs_div, abs_of_pos hpos]
      exact (div_le_one hpos).mpr hCS
    have hcl : clamp (a.dot b / Real.sqrt (a.lengthSq * b.lengthSq)) (-1) 1
        = a.dot b / Real.sqrt (a.lengthSq * b.lengthSq) := by
      obtain ⟨hl, hr⟩ := abs_le.mp hq
      unfold clamp
      rw [min_eq_right hr, max_eq_right hl]
    rw [hcl, hden, inner_toE]

theorem infDist_planeThrough {E : Type*} [NormedAddCommGroup E]
    [InnerProductSpace ℝ E] (n p q : E) (hn : n ≠ 0) :
    Metric.infDist q (planeThrough n p) = |(inner n (q - p) : ℝ)| / ‖n‖ := by
  have hnn : ‖n‖ ≠ 0 := norm_ne_zero_iff.mpr hn
  have hnpos : (0 : ℝ) < ‖n‖ := norm_pos_iff.mpr hn
  set c : ℝ := inner n (q - p) with hc
  set x0 : E := q - (c / ‖n‖ ^ 2) • n with hx0
  have hmem : x0 ∈ planeThrough n p := by
    show (inner n (x0 - p) : ℝ) = 0
    have hrw : x0 - p = (q - p) - (c / ‖n‖ ^ 2) • n := by rw [hx0]; abel
    rw [hrw, inner_sub_right, real_inner_smul_right, real_inner_self_eq_norm_sq,
      ← hc]
    field_simp
  have hdist : dist q x0 = |c| / ‖n‖ := by
    rw [dist_eq_norm]
    have hrw : q - x0 = (c / ‖n‖ ^ 2) • n := by rw [hx0]; abel
    rw [hrw, norm_smul, Real.norm_eq_abs, abs_div,
      abs_of_nonneg (sq_nonneg (‖n‖))]
    rw [sq]
    field_simp
    ring
  apply le_antisymm
  · calc Metric.infDist q (planeThrough n p) ≤ dist q x0 :=
        Metric.infDist_le_dist_of_mem hmem
      _ = |c| / ‖n‖ := hdist
  · rw [Metric.infDist_eq_iInf]
    have : Nonempty (planeThrough n p) := ⟨⟨x0, hmem⟩⟩
    apply le_ciInf
    intro y
    obtain ⟨y, hy⟩ := y
    have hy0 : (inner n (y - p) : ℝ) = 0 := hy
    have hyc : (inner n (q - y) : ℝ) = c := by
      have hsplit : q - p = (q - y) + (y - p) := by abel
      have hcc : c = (inner n (q - y) : ℝ) + (inner n (y - p) : ℝ) := by
        rw [hc, hsplit, inner_add_right]
      rw [hcc, hy0, add_zero]
    have hCS : |c| ≤ ‖n‖ * ‖q - y‖ := by
      rw [← hyc]
      exact abs_real_inner_le_norm n (q - y)
    calc |c| / ‖n‖ ≤ ‖q - y‖ := by
          rw [div_le_iff₀ hnpos, mul_comm]
          exact hCS
      _ = dist q y := (dist_eq_norm q y).symm

/-! Evaluation lemmas at concrete inputs. -/

theorem getFaceWorldNormal_simple (p n : Vec3) :
    GetFaceWorldNormal (simpleIntersection p n) = n := by
  unfold GetFaceWorldNormal simpleIntersection Mat4.prodList
  dsimp only [List.foldl]
  unfold Mat4.extractRotation Mat4.identityM Vec3.applyMatrix4 Vec3.length
    Vec3.lengthSq
  dsimp only
  ext <;> norm_num [Real.sqrt_one]

theorem angleTo_unitX_self : (Vec3.mk 1 0 0).angleTo (Vec3.mk 1 0 0) = 0 := by
  unfold Vec3.angleTo Vec3.lengthSq Vec3.dot clamp
  dsimp only
  rw [show ((1 : ℝ) * 1 + 0 * 0 + 0 * 0) * (1 * 1 + 0 * 0 + 0 * 0) = 1 by
    norm_num]
  rw [Real.sqrt_one, if_neg one_ne_zero]
  norm_num [Real.arccos_one]

theorem length_unitX : (Vec3.mk 1 0 0).length = 1 := by
  unfold Vec3.length Vec3.lengthSq
  dsimp only
  rw [show ((1 : ℝ) * 1 + 0 * 0 + 0 * 0) = 1 by norm_num]
  exact Real.sqrt_one

theorem angleTo_twoX_self : (Vec3.mk 2 0 0).angleTo (Vec3.mk 2 0 0) = 0 := by
  unfold Vec3.angleTo Vec3.lengthSq Vec3.dot clamp
  dsimp only
  rw [show ((2 : ℝ) * 2 + 0 * 0 + 0 * 0) * (2 * 2 + 0 * 0 + 0 * 0) = 16 by
    norm_num]
  rw [show Real.sqrt 16 = 4 from by
    rw [show (16 : ℝ) = 4 ^ 2 by norm_num]
    exact Real.sqrt_sq (by norm_num)]
  rw [if_neg (by norm_num : (4 : ℝ) ≠ 0)]
  norm_num [Real.arccos_one]

theorem length_twoX : (Vec3.mk 2 0 0).length = 2 := by
  unfold Vec3.length Vec3.lengthSq
  dsimp only
  rw [show ((2 : ℝ) * 2 + 0 * 0 + 0 * 0) = 2 ^ 2 by norm_num]
  exact Real.sqrt_sq (by norm_num)

theorem length_unitY : (Vec3.mk 0 1 0).length = 1 := by
  unfold Vec3.length Vec3.lengthSq
  dsimp only
  rw [show ((0 : ℝ) * 0 + 1 * 1 + 0 * 0) = 1 by norm_num]
  exact Real.sqrt_one

theorem length_unitZ : (Vec3.mk 0 0 1).length = 1 := by
  unfold Vec3.length Vec3.lengthSq
  dsimp only
  rw [show ((0 : ℝ) * 0 + 0 * 0 + 1 * 1) = 1 by norm_num]
  exact Real.sqrt_one

theorem Mat4.identity_mul (m : Mat4) : Mat4.identityM.mul m = m := by
  ext <;> simp [Mat4.mul, Mat4.identityM]

/-! Claim C4 and its correction. -/

/-- Claim C4 (amended): `CalculateMarkerValues` returns the Euclidean distance
between the intersection points and the Euclidean angle between the world
normals, and, when the parallel condition holds and the first world normal is
a unit vector, the distance from the second point to the plane through the
first point with the first world normal. -/
theorem C4_marker_values_formulas (aM bM : Marker) :
    (CalculateMarkerValues aM bM).pointsDistance
        = some (dist aM.intersection.point.toE bM.intersection.point.toE) ∧
      (CalculateMarkerValues aM bM).facesAngle
        = some (InnerProductGeometry.angle
            (GetFaceWorldNormal aM.intersection).toE
            (GetFaceWorldNormal bM.intersection).toE) ∧
      ((IsEqualEps ((GetFaceWorldNormal aM.intersection).angleTo
            (GetFaceWorldNormal bM.intersection)) 0 BigEps ∨
          IsEqualEps ((GetFaceWorldNormal aM.intersection).angleTo
            (GetFaceWorldNormal bM.intersection)) Real.pi BigEps) →
        (GetFaceWorldNormal aM.intersection).length = 1 →
        (CalculateMarkerValues aM bM).parallelFacesDistance
          = some (Metric.infDist bM.intersection.point.toE
              (planeThrough (GetFaceWorldNormal aM.intersection).toE
                aM.intersection.point.toE))) := by
  refine ⟨?_, ?_, ?_⟩
  · unfold CalculateMarkerValues
    dsimp only
    rw [dist_toE]
  · unfold CalculateMarkerValues
    dsimp only
    rw [angleTo_eq_angle]
  · intro hpar hunit
    have hnorm : ‖(GetFaceWorldNormal aM.intersection).toE‖ = 1 := by
      rw [norm_toE, hunit]
    have hne : (GetFaceWorldNormal aM.intersection).toE ≠ 0 := by
      intro h0
      rw [h0, norm_zero] at hnorm
      exact one_ne_zero hnorm.symm
    rw [infDist_planeThrough _ _ _ hne, hnorm, div_one]
    unfold CalculateMarkerValues
    dsimp only
    rw [if_pos hpar]
    congr 1
    unfold Plane.setFromNormalAndCoplanarPoint Plane.distanceToPoint
    dsimp only
    rw [inner_sub_right, inner_toE, inner_toE]
    congr 1
    unfold Vec3.dot
    ring

/-- Witness for the amended C4 at two markers on parallel unit-normal faces:
points (0,0,0) and (3,4,0), world normals (1,0,0). -/
theorem C4_marker_values_formulas_witness :
    (CalculateMarkerValues markerA1 markerB1).pointsDistance
        = some (dist markerA1.intersection.point.toE
            markerB1.intersection.point.toE) ∧
      (CalculateMarkerValues markerA1 markerB1).facesAngle
        = some (InnerProductGeometry.angle
            (GetFaceWorldNormal markerA1.intersection).toE
            (GetFaceWorldNormal markerB1.intersection).toE) ∧
      (CalculateMarkerValues markerA1 markerB1).parallelFacesDistance
        = some (Metric.infDist markerB1.intersection.point.toE
            (planeThrough (GetFaceWorldNormal markerA1.intersection).toE
              markerA1.intersection.point.toE)) := by
  have hA : GetFaceWorldNormal markerA1.intersection = Vec3.mk 1 0 0 :=
    getFaceWorldNormal_simple (Vec3.mk 0 0 0) (Vec3.mk 1 0 0)
  have hB : GetFaceWorldNormal markerB1.intersection = Vec3.mk 1 0 0 :=
    getFaceWorldNormal_simple (Vec3.mk 3 4 0) (Vec3.mk 1 0 0)
  have hpar : IsEqualEps ((GetFaceWorldNormal markerA1.intersection).angleTo
      (GetFaceWorldNormal markerB1.intersection)) 0 BigEps := by
    rw [hA, hB, angleTo_unitX_self]
    unfold IsEqualEps BigEps
    norm_num
  have hunit : (GetFaceWorldNormal markerA1.intersection).length = 1 := by
    rw [hA]
    exact length_unitX
  exact ⟨(C4_marker_values_formulas markerA1 markerB1).1,
    (C4_marker_values_formulas markerA1 markerB1).2.1,
    (C4_marker_values_formulas markerA1 markerB1).2.2 (Or.inl hpar) hunit⟩

/-- Claim C4 counterexample: with both face normals (2,0,0) on untransformed
objects, first point at the origin and second at (1,0,0), the parallel branch
is taken and the code stores 2, while the distance from (1,0,0) to the plane
through the origin with normal (2,0,0) is 1.  The stored value is the plane
offset scaled by the normal's length, not the distance. -/
theorem C4_counterexample :
    (CalculateMarkerValues markerA2 markerB2).parallelFacesDistance = some 2 ∧
      Metric.infDist markerB2.intersection.point.toE
          (planeThrough (GetFaceWorldNormal markerA2.intersection).toE
            markerA2.intersection.point.toE) = 1 ∧
      (CalculateMarkerValues markerA2 markerB2).parallelFacesDistance ≠
        some (Metric.infDist markerB2.intersection.point.toE
          (planeThrough (GetFaceWorldNormal markerA2.intersection).toE
            markerA2.intersection.point.toE)) := by
  have hA : GetFaceWorldNormal markerA2.intersection = Vec3.mk 2 0 0 :=
    getFaceWorldNormal_simple (Vec3.mk 0 0 0) (Vec3.mk 2 0 0)
  have hB : GetFaceWorldNormal markerB2.intersection = Vec3.mk 2 0 0 :=
    getFaceWorldNormal_simple (Vec3.mk 1 0 0) (Vec3.mk 2 0 0)
  have hpA : markerA2.intersection.point = Vec3.mk 0 0 0 := rfl
  have hpB : markerB2.intersection.point = Vec3.mk 1 0 0 := rfl
  have hne2 : (Vec3.mk 2 0 0).toE ≠ 0 := by
    have h2 : ‖(Vec3.mk 2 0 0).toE‖ = 2 := by rw [norm_toE, length_twoX]
    intro h0
    rw [h0, norm_zero] at h2
    norm_num at h2
  have hval : (CalculateMarkerValues markerA2 markerB2).parallelFacesDistance
      = some 2 := by
    unfold CalculateMarkerValues
    dsimp only
    rw [hA, hB, hpA, hpB, angleTo_twoX_self]
    rw [if_pos (Or.inl (by unfold IsEqualEps BigEps; norm_num))]
    unfold Plane.setFromNormalAndCoplanarPoint Plane.distanceToPoint Vec3.dot
    dsimp only
    norm_num
  have hinf : Metric.infDist markerB2.intersection.point.toE
      (planeThrough (GetFaceWorldNormal markerA2.intersection).toE
        markerA2.intersection.point.toE) = 1 := by
    rw [hA, hpA, hpB, infDist_planeThrough _ _ _ hne2]
    rw [inner_sub_right, inner_toE, inner_toE, norm_toE, length_twoX]
    unfold Vec3.dot
    norm_num
  refine ⟨hval, hinf, ?_⟩
  rw [hval, hinf]
  norm_num

/-! Claim C5: the world normal uses exactly the rotation component of the
world matrix. -/

/-- Claim C5: when the intersected object's world matrix — the product of its
ancestor chain's local matrices, the chain `updateWorldMatrix(true, false)`
refreshes first — decomposes as translation times rotation times scale, with
unit rotation columns and positive scale factors, `GetFaceWorldNormal` returns
the face's local normal transformed by exactly that rotation: the translation
and the scale components are discarded. -/
theorem C5_world_normal_is_rotation_only (i : Intersection) (t s : Vec3)
    (R : Mat4)
    (hw : Mat4.prodList i.object.ancestors
        = (Mat4.translationM t).mul (R.mul (Mat4.scaleM s)))
    (hcol0 : (Vec3.mk R.m00 R.m10 R.m20).length = 1)
    (hcol1 : (Vec3.mk R.m01 R.m11 R.m21).length = 1)
    (hcol2 : (Vec3.mk R.m02 R.m12 R.m22).length = 1)
    (haff : R.m30 = 0 ∧ R.m31 = 0 ∧ R.m32 = 0 ∧ R.m33 = 1)
    (htr : R.m03 = 0 ∧ R.m13 = 0 ∧ R.m23 = 0)
    (hs : 0 < s.x ∧ 0 < s.y ∧ 0 < s.z) :
    GetFaceWorldNormal i = i.face.normal.applyMatrix4 R := by
  obtain ⟨h30, h31, h32, h33⟩ := haff
  obtain ⟨h03, h13, h23⟩ := htr
  obtain ⟨hsx, hsy, hsz⟩ := hs
  have hc0 : R.m00 * R.m00 + R.m10 * R.m10 + R.m20 * R.m20 = 1 := by
    have h := hcol0
    unfold Vec3.length at h
    have h1 := Real.sqrt_eq_one.mp h
    unfold Vec3.lengthSq at h1
    exact h1
  have hc1 : R.m01 * R.m01 + R.m11 * R.m11 + R.m21 * R.m21 = 1 := by
    have h := hcol1
    unfold Vec3.length at h
    have h1 := Real.sqrt_eq_one.mp h
    unfold Vec3.lengthSq at h1
    exact h1
  have hc2 : R.m02 * R.m02 + R.m12 * R.m12 + R.m22 * R.m22 = 1 := by
    have h := hcol2
    unfold Vec3.length at h
    have h1 := Real.sqrt_eq_one.mp h
    unfold Vec3.lengthSq at h1
    exact h1
  have hTRS : (Mat4.translationM t).mul (R.mul (Mat4.scaleM s)) =
      Mat4.mk (R.m00 * s.x) (R.m01 * s.y) (R.m02 * s.z) t.x
        (R.m10 * s.x) (R.m11 * s.y) (R.m12 * s.z) t.y
        (R.m20 * s.x) (R.m21 * s.y) (R.m22 * s.z) t.z
        0 0 0 1 := by
    ext <;> simp only [Mat4.mul, Mat4.translationM, Mat4.scaleM,
      h30, h31, h32, h33, h03, h13, h23] <;> ring
  have hlen0 : (Vec3.mk (R.m00 * s.x) (R.m10 * s.x) (R.m20 * s.x)).length
      = s.x := by
    unfold Vec3.length Vec3.lengthSq
    dsimp only
    rw [show R.m00 * s.x * (R.m00 * s.x) + R.m10 * s.x * (R.m10 * s.x) +
        R.m20 * s.x * (R.m20 * s.x)
        = s.x ^ 2 * (R.m00 * R.m00 + R.m10 * R.m10 + R.m20 * R.m20) by ring]
    rw [hc0, mul_one]
    exact Real.sqrt_sq hsx.le
  have hlen1 : (Vec3.mk (R.m01 * s.y) (R.m11 * s.y) (R.m21 * s.y)).length
      = s.y := by
    unfold Vec3.length Vec3.lengthSq
    dsimp only
    rw [show R.m01 * s.y * (R.m01 * s.y) + R.m11 * s.y * (R.m11 * s.y) +
        R.m21 * s.y * (R.m21 * s.y)
        = s.y ^ 2 * (R.m01 * R.m01 + R.m11 * R.m11 + R.m21 * R.m21) by ring]
    rw [hc1, mul_one]
    exact Real.sqrt_sq hsy.le
  have hlen2 : (Vec3.mk (R.m02 * s.z) (R.m12 * s.z) (R.m22 * s.z)).length
      = s.z := by
    unfold Vec3.length Vec3.lengthSq
    dsimp only
    rw [show R.m02 * s.z * (R.m02 * s.z) + R.m12 * s.z * (R.m12 * s.z) +
        R.m22 * s.z * (R.m22 * s.z)
        = s.z ^ 2 * (R.m02 * R.m02 + R.m12 * R.m12 + R.m22 * R.m22) by ring]
    rw [hc2, mul_one]
    exact Real.sqrt_sq hsz.le
  have hx0 : s.x ≠ 0 := ne_of_gt hsx
  have hy0 : s.y ≠ 0 := ne_of_gt hsy
  have hz0 : s.z ≠ 0 := ne_of_gt hsz
  unfold GetFaceWorldNormal
  rw [hw, hTRS]
  unfold Mat4.extractRotation
  dsimp only
  rw [hlen0, hlen1, hlen2]
  unfold Vec3.applyMatrix4
  dsimp only
  simp only [h30, h31, h32, h33, h03, h13, h23]
  ext <;> field_simp

/-- Witness for C5 at a concrete decomposition: translation (1,2,3), identity
rotation, scale (2,3,4); the world normal of a face with local normal (0,0,1)
is that normal transformed by the identity rotation alone. -/
theorem C5_world_normal_is_rotation_only_witness :
    GetFaceWorldNormal c5Inter
      = c5Inter.face.normal.applyMatrix4 Mat4.identityM := by
  apply C5_world_normal_is_rotation_only c5Inter (Vec3.mk 1 2 3) (Vec3.mk 2 3 4)
    Mat4.identityM
  · have h1 : Mat4.prodList c5Inter.object.ancestors
        = Mat4.identityM.mul c5World := rfl
    rw [h1, Mat4.identity_mul]
    rfl
  · exact length_unitX
  · exact length_unitY
  · exact length_unitZ
  · exact ⟨rfl, rfl, rfl, rfl⟩
  · exact ⟨rfl, rfl, rfl⟩
  · refine ⟨by norm_num, by norm_num, by norm_num⟩

/-! Frame lemmas about the marker list. -/

theorem updatePanel_markers_eq (s : ToolState) :
    (IdentificationTool.UpdatePanel s).markers = s.markers := by
  cases hp : s.panel
  · simp only [IdentificationTool.UpdatePanel, hp]
  · simp only [IdentificationTool.UpdatePanel, hp]
    split_ifs <;> rfl

theorem updatePanel_v2_markers_eq (s : ToolState) :
    (IdentificationTool.UpdatePanel_v2 s).markers = s.markers := by
  cases hp : s.panel
  · simp only [IdentificationTool.UpdatePanel_v2, hp]
  · simp only [IdentificationTool.UpdatePanel_v2, hp]
    split_ifs <;> rfl

theorem addMarker_markers_eq (env : ViewerEnv) (s : ToolState) (i : Intersection) :
    (IdentificationTool.AddMarker env s i).markers
      = s.markers ++ [Marker.new i (env.boundingSphereRadius / 20)] := by
  unfold IdentificationTool.AddMarker IdentificationTool.GenerateMarker
  dsimp only
  split_ifs <;> rfl

theorem addMarker_v2_markers_eq (env : ViewerEnv) (s : ToolState) (i : Intersection) :
    (IdentificationTool.AddMarker_v2 env s i).markers
      = s.markers ++ [Marker.new i (env.boundingSphereRadius / 20)] := by
  rfl

theorem mouseMove_markers_eq (env : ViewerEnv) (s : ToolState)
    (res : Option Intersection) :
    (IdentificationTool.MouseMove env s res).markers = s.markers := by
  cases res <;> cases htm : s.tempMarker <;>
    simp [IdentificationTool.MouseMove, IdentificationTool.GenerateMarker, htm]

theorem setActive_markers_le (s : ToolState) (b : Bool)
    (h : s.markers.length ≤ 3) :
    (IdentificationTool.SetActive s b).markers.length ≤ 3 := by
  unfold IdentificationTool.SetActive
  split_ifs with h1 h2
  · exact h
  · rw [updatePanel_markers_eq]; exact h
  · simp [IdentificationTool.ClearMarkers]

theorem stepEvent_markers_le (env : ViewerEnv) (s : ToolState) (e : Event)
    (h : s.markers.length ≤ 3) : (stepEvent env s e).markers.length ≤ 3 := by
  cases e with
  | setActive b => exact setActive_markers_le s b h
  | click r =>
      cases r with
      | none =>
          simp [stepEvent, IdentificationTool.Click, updatePanel_markers_eq,
            IdentificationTool.ClearMarkers]
      | some i =>
          by_cases h3 : s.markers.length = 3
          · simp [stepEvent, IdentificationTool.Click, h3, h]
          · simp only [stepEvent, IdentificationTool.Click, if_neg h3,
              updatePanel_markers_eq, addMarker_markers_eq, List.length_append,
              List.length_cons, List.length_nil]
            omega
  | mouseMove r => rw [stepEvent, mouseMove_markers_eq]; exact h
  | clearMarkers => simp [stepEvent, IdentificationTool.ClearMarkers]

/-- Claim C2: from the constructor, any sequence of SetActive, Click,
MouseMove and ClearMarkers calls leaves at most three selected markers, and a
Click that hits the mesh while three markers exist leaves the marker list
unchanged. -/
theorem C2_at_most_three_markers (env : ViewerEnv) (es : List Event) :
    (runEvents env es).markers.length ≤ 3 ∧
      ∀ i : Intersection, (runEvents env es).markers.length = 3 →
        (IdentificationTool.Click env (runEvents env es) (some i)).markers
          = (runEvents env es).markers := by
  constructor
  · have key : ∀ (l : List Event) (s : ToolState), s.markers.length ≤ 3 →
        (l.foldl (stepEvent env) s).markers.length ≤ 3 := by
      intro l
      induction l with
      | nil => intro s h; exact h
      | cons e t ih => intro s h; exact ih _ (stepEvent_markers_le env s e h)
    exact key es initState (by simp [initState])
  · intro i h3
    simp [IdentificationTool.Click, h3]

/-- Witness for C2: after three hitting clicks there are exactly three
markers, and a fourth hitting click leaves the marker list unchanged. -/
theorem C2_at_most_three_markers_witness :
    (runEvents envW threeClicks).markers.length = 3 ∧
      (IdentificationTool.Click envW (runEvents envW threeClicks) (some hitW)).markers
        = (runEvents envW threeClicks).markers :=
  ⟨by rfl, (C2_at_most_three_markers envW threeClicks).2 hitW (by rfl)⟩

/-- Claim C3: `CalculateMarkerValues` reports a parallel-face distance exactly
when the angle between the two world normals is within `BigEps` of `0` or of
`pi`; otherwise the field stays `null`. -/
theorem C3_parallel_distance_iff (aM bM : Marker) :
    (CalculateMarkerValues aM bM).parallelFacesDistance ≠ none ↔
      (IsEqualEps ((GetFaceWorldNormal aM.intersection).angleTo
          (GetFaceWorldNormal bM.intersection)) 0 BigEps ∨
        IsEqualEps ((GetFaceWorldNormal aM.intersection).angleTo
          (GetFaceWorldNormal bM.intersection)) Real.pi BigEps) := by
  unfold CalculateMarkerValues
  dsimp only
  split_ifs with h <;> simp [h]

/-- Claim C6: a Click whose ray-cast hits the mesh while fewer than three
markers are selected appends exactly one marker, and that marker is positioned
at the ray-cast intersection point. -/
theorem C6_click_hit_appends_marker (env : ViewerEnv) (s : ToolState)
    (i : Intersection) (h : s.markers.length < 3) :
    (IdentificationTool.Click env s (some i)).markers
        = s.markers ++ [Marker.new i (env.boundingSphereRadius / 20)] ∧
      (Marker.new i (env.boundingSphereRadius / 20)).position = i.point := by
  have hne : s.markers.length ≠ 3 := Nat.ne_of_lt h
  constructor
  · simp only [IdentificationTool.Click, if_neg hne, updatePanel_markers_eq,
      addMarker_markers_eq]
  · rfl

/-- Witness for C6: in the initial state a hitting click appends one marker at
the hit point. -/
theorem C6_click_hit_appends_marker_witness :
    (IdentificationTool.Click envW initState (some hitW)).markers
        = initState.markers ++ [Marker.new hitW (envW.boundingSphereRadius / 20)] ∧
      (Marker.new hitW (envW.boundingSphereRadius / 20)).position = hitW.point :=
  C6_click_hit_appends_marker envW initState hitW (by norm_num [initState])

/-- Claim C7: `AddMarker` only appends, so every previously selected marker —
its whole record, in particular its stored intersection and its position — is
unchanged: the old marker list is exactly the prefix of the new one. -/
theorem C7_addMarker_preserves_earlier_markers (env : ViewerEnv) (s : ToolState)
    (i : Intersection) :
    (IdentificationTool.AddMarker env s i).markers.take s.markers.length
      = s.markers := by
  rw [addMarker_markers_eq]
  exact List.take_left s.markers _

/-- Claim C8: a Click whose ray-cast misses clears the selection: no markers,
no temp marker, and the viewer's extra objects emptied, whatever the previous
state was. -/
theorem C8_click_miss_clears_selection (env : ViewerEnv) (s : ToolState) :
    (IdentificationTool.Click env s none).markers = [] ∧
      (IdentificationTool.Click env s none).tempMarker = none ∧
      (IdentificationTool.Click env s none).extraObjects = [] := by
  cases hp : s.panel <;>
    simp [IdentificationTool.Click, IdentificationTool.ClearMarkers,
      IdentificationTool.UpdatePanel, hp]

/-- Claim C9: `MouseMove` never changes the selected-marker list, hit or miss;
it only touches the temporary hover marker. -/
theorem C9_mouseMove_leaves_markers (env : ViewerEnv) (s : ToolState)
    (res : Option Intersection) :
    (IdentificationTool.MouseMove env s res).markers = s.markers :=
  mouseMove_markers_eq env s res

/-- Claim C10: under the at-most-three invariant the guard of the src Click
(`length = 3`) and the guard of the second version (`length >= 3`) reject the
same states, and the two Click versions produce the same marker list. -/
theorem C10_click_guards_equivalent (env : ViewerEnv) (s : ToolState)
    (h : s.markers.length ≤ 3) :
    (s.markers.length = 3 ↔ s.markers.length ≥ 3) ∧
      ∀ res : Option Intersection,
        (IdentificationTool.Click_v2 env s res).markers
          = (IdentificationTool.Click env s res).markers := by
  constructor
  · omega
  · intro res
    cases res with
    | none =>
        simp [IdentificationTool.Click, IdentificationTool.Click_v2,
          IdentificationTool.ClearMarkers, updatePanel_markers_eq,
          updatePanel_v2_markers_eq]
    | some i =>
        by_cases h3 : s.markers.length = 3
        · have hge : s.markers.length ≥ 3 := by omega
          simp [IdentificationTool.Click, IdentificationTool.Click_v2, h3, hge]
        · have hge : ¬ s.markers.length ≥ 3 := by omega
          simp only [IdentificationTool.Click, IdentificationTool.Click_v2,
            if_neg h3, if_neg hge, updatePanel_markers_eq,
            updatePanel_v2_markers_eq, addMarker_markers_eq,
            addMarker_v2_markers_eq]

/-- Witness for C10: in the empty initial state the two guards agree and the
two Click versions add the same marker. -/
theorem C10_click_guards_equivalent_witness :
    (initState.markers.length = 3 ↔ initState.markers.length ≥ 3) ∧
      (IdentificationTool.Click_v2 envW initState (some hitW)).markers
        = (IdentificationTool.Click envW initState (some hitW)).markers :=
  ⟨(C10_click_guards_equivalent envW initState (by norm_num [initState])).1,
    (C10_click_guards_equivalent envW initState (by norm_num [initState])).2
      (some hitW)⟩

/-- Claim C1 (code bug evidence): with two markers selected, `UpdatePanel`
sets the panel to the fixed prompt 'Select heel' and never calls
`CalculateMarkerValues`, although the latter would have produced a
point-to-point distance for the very same markers. -/
theorem C1_updatePanel_shows_fixed_prompt :
    (IdentificationTool.UpdatePanel twoMarkerState).panel = some ("Select heel") ∧
      (CalculateMarkerValues markerA1 markerB1).pointsDistance ≠ none := by
  constructor
  · rfl
  · simp [CalculateMarkerValues]

end OV

end
